import Mathlib

/-!
Verification of the repurposing-demo conversation display core.

The development shallowly embeds the two components of the program:

* the message segmenter of `display_chat_messages`
  (src/app/ui/components.py, lines 160-196), which splits an assistant
  message into a "final" buffer and a "progress" buffer by scanning lines
  for bold-delimited agent headers; and
* the session controller of `initialize_demo_session` (src/app.py,
  lines 33-108) together with the sidebar button handlers of
  src/app/ui/components.py.

Lines of text are embedded as `List Char`, mirroring Python's per-character
string operations; the persistence collaborators (thread_manager /
conversation modules), which are not part of this repository's sources, are
modelled from the specification's §6 contract.
-/

deriving instance DecidableEq for Except

namespace RepurDemo

/-- A line of text, as a list of characters (mirrors Python `str`). -/
abbrev Line := List Char

/-- Python's `str.split('\n')`: split a character list at every newline,
keeping empty fields, so the result always has one more element than the
number of newlines. -/
def splitOnNL : Line → List Line
  | [] => [[]]
  | c :: cs =>
    if c = '\n' then [] :: splitOnNL cs
    else
      match splitOnNL cs with
      | [] => [[c]]
      | l :: ls => (c :: l) :: ls

/-- The loop body `content += line + '\n'` iterated over a buffer of lines:
each line is emitted followed by a newline character. -/
def joinNL : List Line → Line
  | [] => []
  | l :: ls => l ++ '\n' :: joinNL ls

/-- Python `str.startswith`: the pattern is a prefix of the line. -/
def startswith : Line → Line → Bool
  | [], _ => true
  | _ :: _, [] => false
  | p :: ps, c :: cs => p = c && startswith ps cs

/-- Python `str.endswith`: the pattern is a suffix of the line. -/
def endswith (pat l : Line) : Bool :=
  startswith pat.reverse l.reverse

/-- Python's containment test `pat in l`: `pat` occurs contiguously in `l`
(the empty pattern occurs in every string). -/
def containsSub (pat : Line) : Line → Bool
  | [] => pat.isEmpty
  | c :: cs => startswith pat (c :: cs) || containsSub pat cs

/-- Python `str.isspace` characters relevant to `str.strip()`. -/
def pyIsSpace (c : Char) : Bool :=
  c = ' ' || c = '\t' || c = '\n' || c = '\r' || c = '\x0b' || c = '\x0c'

/-- Python `str.strip()`: drop leading and trailing whitespace. -/
def stripWS (l : Line) : Line :=
  ((l.dropWhile pyIsSpace).reverse.dropWhile pyIsSpace).reverse

/-- Python `str.upper()` on a line (ASCII case mapping). -/
def upperLine (l : Line) : Line := l.map Char.toUpper

/-- The two section kinds maintained by `display_chat_messages`
(`current_section` is the string "progress" or "final"). -/
inductive Kind where
  | progress
  | final
deriving DecidableEq, Repr

/-- Line 172 of src/app/ui/components.py: the bold-delimiter test
`line.startswith('**') and line.endswith('**')`, applied to the raw line. -/
def isHeaderLine (line : Line) : Bool :=
  startswith ['*', '*'] line && endswith ['*', '*'] line

/-- Lines 170-177 of src/app/ui/components.py: compute the section for a
line.  The raw line must start and end with `**`; then the uppercased line
is searched for a progress marker, else a final marker, else the current
section is kept.  Non-header lines also keep the current section. -/
def classifyLine (progressMarkers finalMarkers : List Line) (current : Kind)
    (line : Line) : Kind :=
  let lineUpper := upperLine line
  if isHeaderLine line then
    if progressMarkers.any (fun a => containsSub a lineUpper) then
      Kind.progress
    else if finalMarkers.any (fun a => containsSub a lineUpper) then
      Kind.final
    else current
  else current

/-- Lines 169-183 of src/app/ui/components.py: the accumulation loop.
Returns the progress buffer, the final buffer (each as the list of lines
appended to it, in order) and the final value of `current_section`. -/
def segLoop (pm fm : List Line) : List Line → Kind →
    List Line × List Line × Kind
  | [], k => ([], [], k)
  | line :: rest, k =>
    let k' := classifyLine pm fm k line
    let r := segLoop pm fm rest k'
    match k' with
    | Kind.progress => (line :: r.1, r.2.1, r.2.2)
    | Kind.final => (r.1, line :: r.2.1, r.2.2)

/-- A segment produced by the display routine: a kind plus its trimmed
text. -/
structure Segment where
  kind : Kind
  text : Line
deriving DecidableEq, Repr

/-- Lines 160-193 of src/app/ui/components.py as a pure function: split the
content into lines, run the accumulation loop starting in the `final`
section, then emit the stripped final buffer first (if non-empty) and the
stripped progress buffer second (if non-empty). -/
def segment (content : String) (pm fm : List String) : List Segment :=
  let ls := splitOnNL content.toList
  let r := segLoop (pm.map String.toList) (fm.map String.toList) ls Kind.final
  let finalText := stripWS (joinNL r.2.1)
  let progressText := stripWS (joinNL r.1)
  (if finalText ≠ [] then [⟨Kind.final, finalText⟩] else []) ++
    (if progressText ≠ [] then [⟨Kind.progress, progressText⟩] else [])

/-- The progress-marker vocabulary hard-coded at line 173 of
src/app/ui/components.py. -/
def PROGRESS_AGENTS : List String :=
  ["SUPERVISOR", "RESEARCH_AGENT", "DATA_AGENT", "PREDICTION_AGENT"]

/-- The final-marker vocabulary hard-coded at line 175 of
src/app/ui/components.py. -/
def FINAL_AGENTS : List String := ["PLANNING_AGENT", "REPORT_AGENT"]

/-- The segmentation actually performed on an assistant message by
`display_chat_messages`. -/
def displaySegments (content : String) : List Segment :=
  segment content PROGRESS_AGENTS FINAL_AGENTS

/-- A chat message: `{role, content}` as stored in `st.session_state.messages`. -/
structure Message where
  role : String
  content : String
deriving DecidableEq, Repr

/-- A thread roster entry as returned by `load_thread_ids`:
`{thread_id, title}`. -/
structure RosterEntry where
  thread_id : String
  title : String
deriving DecidableEq, Repr

/-- The Streamlit session state of the demo.  Each field is `none` when the
key is absent from `st.session_state` (the `'key' not in st.session_state`
membership test) and `some v` when present with value `v`.  External object
values (the episodic orchestrator) are represented by `Unit`. -/
structure SessionState where
  episodic_orchestrator : Option (Option Unit)
  thread_files : Option (List (String × List String))
  uploaded_files : Option (List String)
  uploaded_file_path : Option (Option String)
  uploaded_file_hash : Option (Option String)
  uploaded_file_name : Option (Option String)
  use_episodic_learning : Option Bool
  processed_content_hashes : Option (List String)
  expander_states : Option (Bool × Bool)
  thread_ids : Option (List RosterEntry)
  current_thread_id : Option String
  messages : Option (List Message)
  processed_message_ids : Option (List String)
  processed_tools_ids : Option (List String)
  waiting_for_approval : Option Bool
  current_plan : Option (Option String)
  approval_interrupted : Option Bool
deriving DecidableEq, Repr

/-- Modelled from the spec: the state of the persistence collaborator and
the other external collaborators (§6), which are imported by src/app.py but
whose sources are not part of this repository.  `threads` is the durable
roster, `conv` maps a thread id to its stored message history, the `fail_*`
flags make the corresponding collaborator call raise, and `newId`/`newTitle`
describe the roster entry a `create_new_conversation` call would produce. -/
structure Persist where
  threads : List RosterEntry
  conv : List (String × List Message)
  fail_load_ids : Bool
  fail_create_app : Bool
  fail_load_conv : Bool
  fail_create : Bool
  fail_orchestrator : Bool
  newId : String
  newTitle : String
deriving DecidableEq, Repr

/-- Modelled from the spec: `get_welcome_message()` returns the single seed
message placed into a freshly created thread (glossary: "Welcome
message"). -/
def get_welcome_message : Message :=
  ⟨"assistant", "Welcome! Start a new task."⟩

/-- Modelled from the spec: `load_thread_ids()` is `loadRoster()`, an
ordered sequence of roster entries; it raises when the collaborator
fails. -/
def load_thread_ids (p : Persist) : Except Unit (List RosterEntry) :=
  if p.fail_load_ids then Except.error () else Except.ok p.threads

/-- Modelled from the spec: `create_app(...)` builds the agent orchestration
engine (an external collaborator); it raises when it fails. -/
def create_app (p : Persist) : Except Unit Unit :=
  if p.fail_create_app then Except.error () else Except.ok ()

/-- Modelled from the spec: `get_orchestrator()` wires the optional
episodic-learning subsystem; it raises when absent. -/
def get_orchestrator (p : Persist) : Except Unit Unit :=
  if p.fail_orchestrator then Except.error () else Except.ok ()

/-- Modelled from the spec: `load_conversation(thread_id, app)` is the
Select(id) transition — load the full message history for `id` into
`messages`, set `current_thread_id = id`, and reset the per-thread
idempotency sets (§4.2); it raises when the persistence read fails. -/
def load_conversation (p : Persist) (thread_id : String) (s : SessionState) :
    Except Unit SessionState :=
  if p.fail_load_conv then Except.error ()
  else
    Except.ok
      { s with
        current_thread_id := some thread_id
        messages := some (((p.conv.find? (fun e => e.1 = thread_id)).map
          Prod.snd).getD [])
        processed_message_ids := some []
        processed_tools_ids := some [] }

/-- The dictionary returned by `create_new_conversation()`. -/
structure NewConv where
  thread_id : String
  messages : List Message
  processed_message_ids : List String
  processed_tools_ids : List String
deriving DecidableEq, Repr

/-- Modelled from the spec: `create_new_conversation()` is `createThread()`
— persistence creates a new thread record seeded with the welcome message
and the roster gains its entry; it raises when the collaborator fails. -/
def create_new_conversation (p : Persist) : Except Unit (NewConv × Persist) :=
  if p.fail_create then Except.error ()
  else
    Except.ok
      (⟨p.newId, [get_welcome_message], [], []⟩,
       { p with threads := p.threads ++ [⟨p.newId, p.newTitle⟩] })

/-- Lines 36-42 of src/app.py: guarded initialisation of
`episodic_orchestrator`; the `get_orchestrator` call is wrapped in
`try/except` and falls back to `None`, so this step never raises. -/
def initOrchestrator (p : Persist) (s : SessionState) : SessionState :=
  let orchVal : Option Unit :=
    match get_orchestrator p with
    | Except.ok u => some u
    | Except.error _ => none
  if s.episodic_orchestrator.isNone then
    { s with episodic_orchestrator := some orchVal }
  else s

/-- Lines 44-46 of src/app.py: guarded initialisation of `thread_files`. -/
def initThreadFiles (s : SessionState) : SessionState :=
  if s.thread_files.isNone then { s with thread_files := some [] } else s

/-- Lines 49-50 of src/app.py: guarded initialisation of
`uploaded_files`. -/
def initUploadedFiles (s : SessionState) : SessionState :=
  if s.uploaded_files.isNone then { s with uploaded_files := some [] } else s

/-- Lines 51-52 of src/app.py: guarded initialisation of
`uploaded_file_path`. -/
def initUploadedPath (s : SessionState) : SessionState :=
  if s.uploaded_file_path.isNone then
    { s with uploaded_file_path := some none } else s

/-- Lines 53-54 of src/app.py: guarded initialisation of
`uploaded_file_hash`. -/
def initUploadedHash (s : SessionState) : SessionState :=
  if s.uploaded_file_hash.isNone then
    { s with uploaded_file_hash := some none } else s

/-- Lines 55-56 of src/app.py: guarded initialisation of
`uploaded_file_name`. -/
def initUploadedName (s : SessionState) : SessionState :=
  if s.uploaded_file_name.isNone then
    { s with uploaded_file_name := some none } else s

/-- Lines 48-56 of src/app.py: guarded initialisation of the four
file-upload fields, in source order. -/
def initUploadFields (s : SessionState) : SessionState :=
  initUploadedName (initUploadedHash (initUploadedPath (initUploadedFiles s)))

/-- Lines 58-60 of src/app.py: guarded initialisation of
`use_episodic_learning`. -/
def initLearningFlag (s : SessionState) : SessionState :=
  if s.use_episodic_learning.isNone then
    { s with use_episodic_learning := some true } else s

/-- Lines 62-64 of src/app.py: guarded initialisation of
`processed_content_hashes`. -/
def initContentHashes (s : SessionState) : SessionState :=
  if s.processed_content_hashes.isNone then
    { s with processed_content_hashes := some [] } else s

/-- Lines 66-71 of src/app.py: guarded initialisation of
`expander_states`. -/
def initExpanderStates (s : SessionState) : SessionState :=
  if s.expander_states.isNone then
    { s with expander_states := some (true, false) } else s

/-- Lines 36-71 of src/app.py: the guarded initialisations of the
compatibility fields, in source order. -/
def init_compat_fields (p : Persist) (s : SessionState) : SessionState :=
  initExpanderStates (initContentHashes (initLearningFlag
    (initUploadFields (initThreadFiles (initOrchestrator p s)))))

/-- Lines 73-100 of src/app.py: load the roster when absent, then, when no
current thread exists, either load the most recent conversation (with the
logged-and-recovered fallback of lines 85-91) or create a new conversation
(lines 93-100, not wrapped in a `try`, so its failures propagate). -/
def bootstrap_thread (p : Persist) (s : SessionState) :
    Except Unit (SessionState × Persist) := do
  let s ← (if s.thread_ids.isNone then do
      let ids ← load_thread_ids p
      pure { s with thread_ids := some ids }
    else pure s)
  if s.current_thread_id.isNone then
    match (s.thread_ids.getD []).getLast? with
    | some recent =>
      match (do
          let _ ← create_app p
          load_conversation p recent.thread_id s :
          Except Unit SessionState) with
      | Except.error _ =>
        pure
          ({ s with
             current_thread_id := some recent.thread_id
             messages := some [get_welcome_message]
             processed_message_ids := some []
             processed_tools_ids := some [] }, p)
      | Except.ok s2 => pure (s2, p)
    | none => do
      let r ← create_new_conversation p
      let ids ← load_thread_ids r.2
      pure
        ({ s with
           current_thread_id := some r.1.thread_id
           messages := some r.1.messages
           processed_message_ids := some r.1.processed_message_ids
           processed_tools_ids := some r.1.processed_tools_ids
           thread_ids := some ids }, r.2)
  else
    pure (s, p)

/-- Lines 102-104 of src/app.py: guarded initialisation of
`waiting_for_approval`. -/
def initWaiting (s : SessionState) : SessionState :=
  if s.waiting_for_approval.isNone then
    { s with waiting_for_approval := some false } else s

/-- Lines 105-106 of src/app.py: guarded initialisation of
`current_plan`. -/
def initPlan (s : SessionState) : SessionState :=
  if s.current_plan.isNone then { s with current_plan := some none } else s

/-- Lines 107-108 of src/app.py: guarded initialisation of
`approval_interrupted`. -/
def initInterrupted (s : SessionState) : SessionState :=
  if s.approval_interrupted.isNone then
    { s with approval_interrupted := some false } else s

/-- Lines 102-108 of src/app.py: the guarded initialisations of the
approval-related fields, in source order. -/
def init_approval_fields (s : SessionState) : SessionState :=
  initInterrupted (initPlan (initWaiting s))

/-- `initialize_demo_session()` (src/app.py lines 33-108).  The result is
`Except.error ()` when an uncaught collaborator exception escapes the
function (crashing the script run). -/
def initialize_demo_session (p : Persist) (s : SessionState) :
    Except Unit (SessionState × Persist) := do
  let s := init_compat_fields p s
  let r ← bootstrap_thread p s
  pure (init_approval_fields r.1, r.2)

/-- The "New Task" button handler (src/app/ui/components.py lines 47-49):
its body is `st.rerun()`, which re-runs the script from the top, and the
script's `main()` calls `initialize_demo_session` again. -/
def new_task_click (p : Persist) (s : SessionState) :
    Except Unit (SessionState × Persist) :=
  initialize_demo_session p s

/-- The per-thread delete button handler (src/app/ui/components.py lines
140-141): its body is also just `st.rerun()`. -/
def delete_click (p : Persist) (s : SessionState) (_thread_id : String) :
    Except Unit (SessionState × Persist) :=
  initialize_demo_session p s

/-- The per-thread conversation button handler (src/app/ui/components.py
lines 130-136): `load_conversation(thread_id, app)` then `st.rerun()`. -/
def select_click (p : Persist) (s : SessionState) (thread_id : String) :
    Except Unit (SessionState × Persist) := do
  let s2 ← load_conversation p thread_id s
  initialize_demo_session p s2

/-- Every session-state key that `initialize_demo_session` can write is
present. -/
def fully_init (s : SessionState) : Bool :=
  s.episodic_orchestrator.isSome && s.thread_files.isSome &&
  s.uploaded_files.isSome && s.uploaded_file_path.isSome &&
  s.uploaded_file_hash.isSome && s.uploaded_file_name.isSome &&
  s.use_episodic_learning.isSome && s.processed_content_hashes.isSome &&
  s.expander_states.isSome && s.thread_ids.isSome &&
  s.current_thread_id.isSome && s.messages.isSome &&
  s.processed_message_ids.isSome && s.processed_tools_ids.isSome &&
  s.waiting_for_approval.isSome && s.current_plan.isSome &&
  s.approval_interrupted.isSome

/-- The roster referential-integrity invariant: when the roster is present
and non-empty, `current_thread_id` is present and references one of its
entries. -/
def roster_inv (s : SessionState) : Bool :=
  match s.thread_ids with
  | none => true
  | some ids =>
    ids.isEmpty ||
      (match s.current_thread_id with
       | some tid => (ids.map RosterEntry.thread_id).contains tid
       | none => false)

/-- A session state with every key absent: the state of a fresh session
before the first `initialize_demo_session` run. -/
def sFresh : SessionState :=
  ⟨none, none, none, none, none, none, none, none, none, none, none, none,
   none, none, none, none, none⟩

/-- Concrete roster entry used in witnesses and counterexamples. -/
def entry1 : RosterEntry := ⟨"t1", "Task 1"⟩

/-- Concrete roster entry used in witnesses and counterexamples. -/
def entry2 : RosterEntry := ⟨"t2", "Task 2"⟩

/-- A healthy persistence collaborator holding two threads. -/
def pDemo : Persist :=
  ⟨[entry1, entry2],
   [("t1", [⟨"user", "hi"⟩]), ("t2", [⟨"user", "hello"⟩])],
   false, false, false, false, false, "t3", "New Task"⟩

/-- A fully initialised session state: both threads known, `t2` current. -/
def sReady : SessionState :=
  ⟨some (some ()), some [], some [], some none, some none, some none,
   some true, some [], some (true, false), some [entry1, entry2],
   some "t2", some [⟨"user", "hello"⟩], some [], some [],
   some false, some none, some false⟩

/-- `sReady` with the pending-approval flag raised. -/
def sWaiting : SessionState :=
  { sReady with waiting_for_approval := some true }

/-- `sReady` after selecting thread `t1`: its history is loaded, it becomes
current, and the idempotency sets are reset. -/
def sSelected : SessionState :=
  { sReady with
    current_thread_id := some "t1"
    messages := some [⟨"user", "hi"⟩]
    processed_message_ids := some []
    processed_tools_ids := some [] }

/-- The healthy collaborator except that loading a conversation fails. -/
def pFallback : Persist := { pDemo with fail_load_conv := true }

end RepurDemo

namespace RepurDemo

theorem segLoop_perm_sublist (pm fm : List Line) :
    ∀ (ls : List Line) (k : Kind),
      ((segLoop pm fm ls k).1 ++ (segLoop pm fm ls k).2.1).Perm ls ∧
      (segLoop pm fm ls k).1.Sublist ls ∧
      (segLoop pm fm ls k).2.1.Sublist ls := by
  intro ls
  induction ls with
  | nil =>
    intro k
    simp [segLoop]
  | cons line rest ih =>
    intro k
    obtain ⟨hperm, hsubp, hsubf⟩ := ih (classifyLine pm fm k line)
    cases hk : classifyLine pm fm k line with
    | progress =>
      refine ⟨?_, ?_, ?_⟩
      · simpa [segLoop, hk] using hperm.cons line
      · simpa [segLoop, hk] using hsubp.cons₂ line
      · simpa [segLoop, hk] using hsubf.cons line
    | final =>
      refine ⟨?_, ?_, ?_⟩
      · simpa [segLoop, hk] using List.perm_middle.trans (hperm.cons line)
      · simpa [segLoop, hk] using hsubp.cons line
      · simpa [segLoop, hk] using hsubf.cons₂ line

theorem segLoop_stay_final (pm fm : List Line) :
    ∀ ls : List Line,
      (∀ l ∈ ls, classifyLine pm fm Kind.final l = Kind.final) →
      segLoop pm fm ls Kind.final = ([], ls, Kind.final) := by
  intro ls
  induction ls with
  | nil =>
    intro _
    simp [segLoop]
  | cons line rest ih =>
    intro h
    have h1 : classifyLine pm fm Kind.final line = Kind.final :=
      h line (by simp)
    have h2 := ih (fun l hl => h l (by simp [hl]))
    simp [segLoop, h1, h2]

theorem splitOnNL_ne_nil : ∀ l : Line, splitOnNL l ≠ [] := by
  intro l
  induction l with
  | nil => simp [splitOnNL]
  | cons c cs ih =>
    simp only [splitOnNL]
    split
    · simp
    · cases h : splitOnNL cs <;> simp [h]

theorem joinNL_splitOnNL : ∀ l : Line, joinNL (splitOnNL l) = l ++ ['\n'] := by
  intro l
  induction l with
  | nil => simp [splitOnNL, joinNL]
  | cons c cs ih =>
    by_cases hc : c = '\n'
    · subst hc
      simp [splitOnNL, joinNL, ih]
    · cases h : splitOnNL cs with
      | nil => exact absurd h (splitOnNL_ne_nil cs)
      | cons y ys =>
        rw [h] at ih
        have hgoal : splitOnNL (c :: cs) = (c :: y) :: ys := by
          simp [splitOnNL, hc, h]
        rw [hgoal]
        show c :: joinNL (y :: ys) = c :: (cs ++ ['\n'])
        rw [ih]

theorem stripWS_append_newline (l : Line) :
    stripWS (l ++ ['\n']) = stripWS l := by
  unfold stripWS
  rw [List.dropWhile_append]
  by_cases h : (l.dropWhile pyIsSpace).isEmpty
  · rw [if_pos h]
    rw [List.isEmpty_iff] at h
    rw [h]
    simp [pyIsSpace]
  · rw [if_neg h]
    simp only [List.reverse_append, List.reverse_cons, List.reverse_nil,
      List.nil_append, List.singleton_append]
    rw [List.dropWhile_cons_of_pos (by simp [pyIsSpace])]

end RepurDemo

namespace RepurDemo

theorem classify_final_of_no_marker_header (pm fm : List Line) (l : Line)
    (h : isHeaderLine l = true →
      (pm ++ fm).any (fun a => containsSub a (upperLine l)) = false) :
    classifyLine pm fm Kind.final l = Kind.final := by
  unfold classifyLine
  by_cases hb : isHeaderLine l
  · have h2 := h hb
    simp only [List.any_append, Bool.or_eq_false_iff] at h2
    simp [hb, h2.1, h2.2]
  · simp [hb]

/-- C1 (Marker routing): segmenting
`"**SUPERVISOR**\nthinking...\n**REPORT_AGENT**\nDone."` with progress
markers `{"SUPERVISOR"}` and final markers `{"REPORT_AGENT"}` produces
exactly two segments, the final segment first with trimmed text
`"**REPORT_AGENT**\nDone."` and the progress segment second with trimmed
text `"**SUPERVISOR**\nthinking..."`. -/
theorem marker_routing_example :
    segment "**SUPERVISOR**\nthinking...\n**REPORT_AGENT**\nDone."
      ["SUPERVISOR"] ["REPORT_AGENT"] =
      [⟨Kind.final, "**REPORT_AGENT**\nDone.".toList⟩,
       ⟨Kind.progress, "**SUPERVISOR**\nthinking...".toList⟩] := by
  decide

/-- C2 (Segment completeness): for every content string and marker
vocabulary, the two buffers built by the accumulation loop together hold
every line of the content exactly once (their concatenation is a
permutation of the split lines — in particular every non-blank line
appears exactly once), and each buffer lists its lines in their original
order (it is a sublist of the split lines). -/
theorem segment_completeness (pm fm : List String) (content : String) :
    ((segLoop (pm.map String.toList) (fm.map String.toList)
          (splitOnNL content.toList) Kind.final).1 ++
        (segLoop (pm.map String.toList) (fm.map String.toList)
          (splitOnNL content.toList) Kind.final).2.1).Perm
      (splitOnNL content.toList) ∧
    (segLoop (pm.map String.toList) (fm.map String.toList)
        (splitOnNL content.toList) Kind.final).1.Sublist
      (splitOnNL content.toList) ∧
    (segLoop (pm.map String.toList) (fm.map String.toList)
        (splitOnNL content.toList) Kind.final).2.1.Sublist
      (splitOnNL content.toList) :=
  segLoop_perm_sublist (pm.map String.toList) (fm.map String.toList)
    (splitOnNL content.toList) Kind.final

/-- C3 counterexample: the single-space content `" "` contains no
header lines, yet segmentation returns the empty segment list rather than
a single final segment, because the whole-content trim leaves nothing. -/
theorem no_header_all_whitespace_cex :
    (∀ l ∈ splitOnNL " ".toList, isHeaderLine l = false) ∧
    segment " " [] [] = [] := by
  constructor
  · decide
  · decide

/-- C3 as amended: for content with no header lines (no line is
bold-delimited with a recognised marker), segmentation yields a single
final segment equal to the whole stripped content when that strip is
non-empty, and the empty segment list when the content strips to nothing
(in particular for empty content). -/
theorem no_header_single_final (content : String) (pm fm : List String)
    (hnh : ∀ l ∈ splitOnNL content.toList, isHeaderLine l = true →
      ((pm.map String.toList ++ fm.map String.toList).any
        (fun a => containsSub a (upperLine l))) = false) :
    segment content pm fm =
      if stripWS content.toList = [] then []
      else [⟨Kind.final, stripWS content.toList⟩] := by
  have hstay := segLoop_stay_final (pm.map String.toList)
    (fm.map String.toList) (splitOnNL content.toList)
    (fun l hl => classify_final_of_no_marker_header _ _ l (hnh l hl))
  have hnil : stripWS ([] : Line) = [] := rfl
  simp only [segment, hstay, joinNL, joinNL_splitOnNL, stripWS_append_newline,
    hnil]
  by_cases h : stripWS content.toList = []
  · simp [h]
  · simp [h]

/-- Witness for the amended C3 at the spec's own example input. -/
theorem no_header_single_final_witness :
    segment "plain text\nline two" [] [] =
      if stripWS ("plain text\nline two").toList = [] then []
      else [⟨Kind.final, stripWS ("plain text\nline two").toList⟩] :=
  no_header_single_final "plain text\nline two" [] [] (by decide)

end RepurDemo

namespace RepurDemo

/-- C4 counterexample: the line `" **SUPERVISOR**"` is bold-delimited
after trimming and its uppercase form contains the progress marker
`SUPERVISOR`, yet the classifier — which tests the raw, untrimmed line —
leaves `current_kind` at `final` instead of setting it to `progress`. -/
theorem header_detection_trimmed_cex :
    isHeaderLine (stripWS " **SUPERVISOR**".toList) = true ∧
    containsSub "SUPERVISOR".toList (upperLine " **SUPERVISOR**".toList) = true ∧
    classifyLine ["SUPERVISOR".toList] [] Kind.final
      " **SUPERVISOR**".toList = Kind.final := by
  refine ⟨by decide, by decide, by decide⟩

/-- C4 as amended: header-line detection operates on the raw line, not
its trimmed text.  A line that is not itself bold-delimited (for example
because of leading or trailing whitespace around the delimiters) leaves
`current_kind` unchanged; a raw bold-delimited line whose uppercase form
contains a progress marker sets `current_kind` to progress, and one whose
uppercase form contains no progress marker but a final marker sets it to
final. -/
theorem header_detection_raw_line (pm fm : List Line) (k : Kind)
    (line : Line) :
    (isHeaderLine line = false → classifyLine pm fm k line = k) ∧
    (isHeaderLine line = true →
      pm.any (fun a => containsSub a (upperLine line)) = true →
      classifyLine pm fm k line = Kind.progress) ∧
    (isHeaderLine line = true →
      pm.any (fun a => containsSub a (upperLine line)) = false →
      fm.any (fun a => containsSub a (upperLine line)) = true →
      classifyLine pm fm k line = Kind.final) := by
  refine ⟨?_, ?_, ?_⟩
  · intro hb
    simp [classifyLine, hb]
  · intro hb hp
    simp [classifyLine, hb, hp]
  · intro hb hp hf
    simp [classifyLine, hb, hp, hf]

/-- Witness for the amended C4: the whitespace-prefixed header keeps the
current kind, the raw header routes to progress, and a raw final-marker
header routes to final. -/
theorem header_detection_raw_line_witness :
    classifyLine ["SUPERVISOR".toList] ["REPORT_AGENT".toList] Kind.final
      " **SUPERVISOR**".toList = Kind.final ∧
    classifyLine ["SUPERVISOR".toList] ["REPORT_AGENT".toList] Kind.final
      "**SUPERVISOR**".toList = Kind.progress ∧
    classifyLine ["SUPERVISOR".toList] ["REPORT_AGENT".toList] Kind.progress
      "**REPORT_AGENT**".toList = Kind.final :=
  ⟨(header_detection_raw_line _ _ _ _).1 (by decide),
   (header_detection_raw_line _ _ _ _).2.1 (by decide) (by decide),
   (header_detection_raw_line _ _ _ _).2.2 (by decide) (by decide) (by decide)⟩

/-- C5: a header line (raw bold-delimited line) whose uppercase text
contains no progress marker and no final marker leaves `current_kind`
unchanged, and the accumulation loop appends that line to the buffer of the
kind that was in effect before it, continuing in that same kind for the
following lines. -/
theorem unmatched_header_keeps_kind (pm fm : List Line) (k : Kind)
    (line : Line) (rest : List Line)
    (hb : isHeaderLine line = true)
    (hp : pm.any (fun a => containsSub a (upperLine line)) = false)
    (hf : fm.any (fun a => containsSub a (upperLine line)) = false) :
    classifyLine pm fm k line = k ∧
    segLoop pm fm (line :: rest) k =
      (match k with
       | Kind.progress =>
         (line :: (segLoop pm fm rest k).1, (segLoop pm fm rest k).2.1,
          (segLoop pm fm rest k).2.2)
       | Kind.final =>
         ((segLoop pm fm rest k).1, line :: (segLoop pm fm rest k).2.1,
          (segLoop pm fm rest k).2.2)) := by
  have hc : classifyLine pm fm k line = k := by
    simp [classifyLine, hb, hp, hf]
  refine ⟨hc, ?_⟩
  cases k <;> simp [segLoop, hc]

/-- Witness for C5: the unrecognised header `**HELPER_AGENT**` keeps the
progress section that a supervisor header had opened. -/
theorem unmatched_header_keeps_kind_witness :
    classifyLine ["SUPERVISOR".toList] ["REPORT_AGENT".toList] Kind.progress
      "**HELPER_AGENT**".toList = Kind.progress ∧
    segLoop ["SUPERVISOR".toList] ["REPORT_AGENT".toList]
      ["**HELPER_AGENT**".toList] Kind.progress =
      (["**HELPER_AGENT**".toList], [], Kind.progress) := by
  have h := unmatched_header_keeps_kind ["SUPERVISOR".toList]
    ["REPORT_AGENT".toList] Kind.progress "**HELPER_AGENT**".toList []
    (by decide) (by decide) (by decide)
  exact h

end RepurDemo

namespace RepurDemo

theorem isNone_false {α : Type} {o : Option α} (h : o.isSome = true) :
    o.isNone = false := by
  cases o
  · simp at h
  · rfl

/-- The five thread-related session fields that the guarded compatibility
and approval initialisations never write. -/
def corePreserved (s t : SessionState) : Prop :=
  t.thread_ids = s.thread_ids ∧
  t.current_thread_id = s.current_thread_id ∧
  t.messages = s.messages ∧
  t.processed_message_ids = s.processed_message_ids ∧
  t.processed_tools_ids = s.processed_tools_ids

theorem corePreserved_rfl (s : SessionState) : corePreserved s s :=
  ⟨rfl, rfl, rfl, rfl, rfl⟩

theorem corePreserved_trans {s t u : SessionState}
    (h1 : corePreserved s t) (h2 : corePreserved t u) : corePreserved s u :=
  ⟨h2.1.trans h1.1, h2.2.1.trans h1.2.1, h2.2.2.1.trans h1.2.2.1,
   h2.2.2.2.1.trans h1.2.2.2.1, h2.2.2.2.2.trans h1.2.2.2.2⟩

theorem initOrchestrator_core (p : Persist) (s : SessionState) :
    corePreserved s (initOrchestrator p s) := by
  unfold initOrchestrator corePreserved
  by_cases h : s.episodic_orchestrator.isNone = true <;> simp [h]

theorem initThreadFiles_core (s : SessionState) :
    corePreserved s (initThreadFiles s) := by
  unfold initThreadFiles corePreserved
  by_cases h : s.thread_files.isNone = true <;> simp [h]

theorem initUploadedFiles_core (s : SessionState) :
    corePreserved s (initUploadedFiles s) := by
  unfold initUploadedFiles corePreserved
  by_cases h : s.uploaded_files.isNone = true <;> simp [h]

theorem initUploadedPath_core (s : SessionState) :
    corePreserved s (initUploadedPath s) := by
  unfold initUploadedPath corePreserved
  by_cases h : s.uploaded_file_path.isNone = true <;> simp [h]

theorem initUploadedHash_core (s : SessionState) :
    corePreserved s (initUploadedHash s) := by
  unfold initUploadedHash corePreserved
  by_cases h : s.uploaded_file_hash.isNone = true <;> simp [h]

theorem initUploadedName_core (s : SessionState) :
    corePreserved s (initUploadedName s) := by
  unfold initUploadedName corePreserved
  by_cases h : s.uploaded_file_name.isNone = true <;> simp [h]

theorem initLearningFlag_core (s : SessionState) :
    corePreserved s (initLearningFlag s) := by
  unfold initLearningFlag corePreserved
  by_cases h : s.use_episodic_learning.isNone = true <;> simp [h]

theorem initContentHashes_core (s : SessionState) :
    corePreserved s (initContentHashes s) := by
  unfold initContentHashes corePreserved
  by_cases h : s.processed_content_hashes.isNone = true <;> simp [h]

theorem initExpanderStates_core (s : SessionState) :
    corePreserved s (initExpanderStates s) := by
  unfold initExpanderStates corePreserved
  by_cases h : s.expander_states.isNone = true <;> simp [h]

theorem init_compat_core (p : Persist) (s : SessionState) :
    corePreserved s (init_compat_fields p s) := by
  unfold init_compat_fields
  exact corePreserved_trans (corePreserved_trans (corePreserved_trans
    (corePreserved_trans (corePreserved_trans (initOrchestrator_core p s)
      (initThreadFiles_core _))
      (by
        unfold initUploadFields
        exact corePreserved_trans (corePreserved_trans (corePreserved_trans
          (initUploadedFiles_core _) (initUploadedPath_core _))
          (initUploadedHash_core _)) (initUploadedName_core _)))
      (initLearningFlag_core _))
      (initContentHashes_core _))
    (initExpanderStates_core _)

theorem initWaiting_core (s : SessionState) :
    corePreserved s (initWaiting s) := by
  unfold initWaiting corePreserved
  by_cases h : s.waiting_for_approval.isNone = true <;> simp [h]

theorem initPlan_core (s : SessionState) :
    corePreserved s (initPlan s) := by
  unfold initPlan corePreserved
  by_cases h : s.current_plan.isNone = true <;> simp [h]

theorem initInterrupted_core (s : SessionState) :
    corePreserved s (initInterrupted s) := by
  unfold initInterrupted corePreserved
  by_cases h : s.approval_interrupted.isNone = true <;> simp [h]

theorem init_approval_core (s : SessionState) :
    corePreserved s (init_approval_fields s) := by
  unfold init_approval_fields
  exact corePreserved_trans (corePreserved_trans (initWaiting_core s)
    (initPlan_core _)) (initInterrupted_core _)

end RepurDemo

namespace RepurDemo

theorem initOrchestrator_noop (p : Persist) (s : SessionState)
    (h : s.episodic_orchestrator.isSome = true) : initOrchestrator p s = s := by
  simp [initOrchestrator, isNone_false h]

theorem initThreadFiles_noop (s : SessionState)
    (h : s.thread_files.isSome = true) : initThreadFiles s = s := by
  simp [initThreadFiles, isNone_false h]

theorem initUploadedFiles_noop (s : SessionState)
    (h : s.uploaded_files.isSome = true) : initUploadedFiles s = s := by
  simp [initUploadedFiles, isNone_false h]

theorem initUploadedPath_noop (s : SessionState)
    (h : s.uploaded_file_path.isSome = true) : initUploadedPath s = s := by
  simp [initUploadedPath, isNone_false h]

theorem initUploadedHash_noop (s : SessionState)
    (h : s.uploaded_file_hash.isSome = true) : initUploadedHash s = s := by
  simp [initUploadedHash, isNone_false h]

theorem initUploadedName_noop (s : SessionState)
    (h : s.uploaded_file_name.isSome = true) : initUploadedName s = s := by
  simp [initUploadedName, isNone_false h]

theorem initLearningFlag_noop (s : SessionState)
    (h : s.use_episodic_learning.isSome = true) : initLearningFlag s = s := by
  simp [initLearningFlag, isNone_false h]

theorem initContentHashes_noop (s : SessionState)
    (h : s.processed_content_hashes.isSome = true) :
    initContentHashes s = s := by
  simp [initContentHashes, isNone_false h]

theorem initExpanderStates_noop (s : SessionState)
    (h : s.expander_states.isSome = true) : initExpanderStates s = s := by
  simp [initExpanderStates, isNone_false h]

theorem initWaiting_noop (s : SessionState)
    (h : s.waiting_for_approval.isSome = true) : initWaiting s = s := by
  simp [initWaiting, isNone_false h]

theorem initPlan_noop (s : SessionState)
    (h : s.current_plan.isSome = true) : initPlan s = s := by
  simp [initPlan, isNone_false h]

theorem initInterrupted_noop (s : SessionState)
    (h : s.approval_interrupted.isSome = true) : initInterrupted s = s := by
  simp [initInterrupted, isNone_false h]

theorem except_bind_ok {ε α β : Type} (a : α) (f : α → Except ε β) :
    (Except.ok a : Except ε α) >>= f = f a := rfl

theorem except_bind_err {ε α β : Type} (e : ε) (f : α → Except ε β) :
    (Except.error e : Except ε α) >>= f = Except.error e := rfl

theorem except_pure_eq_ok {ε α : Type} (a : α) :
    (pure a : Except ε α) = Except.ok a := rfl

theorem bootstrap_thread_noop (p : Persist) (s : SessionState)
    (h1 : s.thread_ids.isSome = true)
    (h2 : s.current_thread_id.isSome = true) :
    bootstrap_thread p s = Except.ok (s, p) := by
  unfold bootstrap_thread
  rw [if_neg (by simp [isNone_false h1]), except_pure_eq_ok, except_bind_ok,
    if_neg (by simp [isNone_false h2]), except_pure_eq_ok]

theorem init_session_stable (p : Persist) (s : SessionState)
    (h : fully_init s = true) :
    initialize_demo_session p s = Except.ok (s, p) := by
  simp only [fully_init, Bool.and_eq_true] at h
  obtain ⟨⟨⟨⟨⟨⟨⟨⟨⟨⟨⟨⟨⟨⟨⟨⟨h1, h2⟩, h3⟩, h4⟩, h5⟩, h6⟩, h7⟩, h8⟩, h9⟩, h10⟩,
    h11⟩, h12⟩, h13⟩, h14⟩, h15⟩, h16⟩, h17⟩ := h
  have hc : init_compat_fields p s = s := by
    unfold init_compat_fields initUploadFields
    rw [initOrchestrator_noop p s h1, initThreadFiles_noop s h2,
      initUploadedFiles_noop s h3, initUploadedPath_noop s h4,
      initUploadedHash_noop s h5, initUploadedName_noop s h6,
      initLearningFlag_noop s h7, initContentHashes_noop s h8,
      initExpanderStates_noop s h9]
  have ha : init_approval_fields s = s := by
    unfold init_approval_fields
    rw [initWaiting_noop s h15, initPlan_noop s h16,
      initInterrupted_noop s h17]
  simp only [initialize_demo_session, hc, bootstrap_thread_noop p s h10 h11,
    except_bind_ok, ha]
  rfl

end RepurDemo

namespace RepurDemo

theorem bootstrap_thread_load (p : Persist) (s : SessionState)
    (hti : s.thread_ids = none) (hfl : p.fail_load_ids = false) :
    bootstrap_thread p s =
      bootstrap_thread p { s with thread_ids := some p.threads } := by
  conv_rhs => unfold bootstrap_thread
  rw [if_neg (by simp), except_pure_eq_ok, except_bind_ok]
  conv_lhs => unfold bootstrap_thread
  rw [if_pos (by simp [hti])]
  rw [show load_thread_ids p = Except.ok p.threads by
    simp [load_thread_ids, hfl]]
  rw [except_bind_ok, except_pure_eq_ok, except_bind_ok]

theorem bootstrap_thread_load_fail (p : Persist) (s : SessionState)
    (hti : s.thread_ids = none) (hfl : p.fail_load_ids = true) :
    bootstrap_thread p s = Except.error () := by
  unfold bootstrap_thread
  rw [if_pos (by simp [hti])]
  rw [show load_thread_ids p = Except.error () by simp [load_thread_ids, hfl]]
  rw [except_bind_err, except_bind_err]

theorem bootstrap_thread_fallback (p : Persist) (s : SessionState)
    (ids : List RosterEntry) (recent : RosterEntry)
    (hti : s.thread_ids = some ids) (hcur : s.current_thread_id = none)
    (hgl : ids.getLast? = some recent)
    (hfail : p.fail_create_app = true ∨ p.fail_load_conv = true) :
    bootstrap_thread p s =
      Except.ok ({ s with
        current_thread_id := some recent.thread_id
        messages := some [get_welcome_message]
        processed_message_ids := some []
        processed_tools_ids := some [] }, p) := by
  unfold bootstrap_thread
  rw [if_neg (by simp [hti]), except_pure_eq_ok, except_bind_ok,
    if_pos (by simp [hcur]), hti]
  have hinner : (do
      let _ ← create_app p
      load_conversation p recent.thread_id s :
      Except Unit SessionState) = Except.error () := by
    rcases hfail with h | h
    · rw [show create_app p = Except.error () by simp [create_app, h]]
      rw [except_bind_err]
    · cases hca : p.fail_create_app
      · rw [show create_app p = Except.ok () by simp [create_app, hca]]
        rw [except_bind_ok]
        simp [load_conversation, h]
      · rw [show create_app p = Except.error () by simp [create_app, hca]]
        rw [except_bind_err]
  simp only [Option.getD_some, hgl, hinner]
  rfl

theorem bootstrap_thread_pick (p : Persist) (s : SessionState)
    (ids : List RosterEntry) (recent : RosterEntry)
    (hti : s.thread_ids = some ids) (hcur : s.current_thread_id = none)
    (hgl : ids.getLast? = some recent)
    (hca : p.fail_create_app = false) (hlc : p.fail_load_conv = false) :
    bootstrap_thread p s =
      Except.ok ({ s with
        current_thread_id := some recent.thread_id
        messages := some (((p.conv.find? (fun e => e.1 = recent.thread_id)).map
          Prod.snd).getD [])
        processed_message_ids := some []
        processed_tools_ids := some [] }, p) := by
  unfold bootstrap_thread
  rw [if_neg (by simp [hti]), except_pure_eq_ok, except_bind_ok,
    if_pos (by simp [hcur]), hti]
  have hinner : (do
      let _ ← create_app p
      load_conversation p recent.thread_id s :
      Except Unit SessionState) =
      Except.ok { s with
        current_thread_id := some recent.thread_id
        messages := some (((p.conv.find? (fun e => e.1 = recent.thread_id)).map
          Prod.snd).getD [])
        processed_message_ids := some []
        processed_tools_ids := some [] } := by
    rw [show create_app p = Except.ok () by simp [create_app, hca]]
    rw [except_bind_ok]
    simp [load_conversation, hlc]
  simp only [Option.getD_some, hgl, hinner]
  rw [except_pure_eq_ok, hti]

theorem bootstrap_thread_create (p : Persist) (s : SessionState)
    (ids : List RosterEntry)
    (hti : s.thread_ids = some ids) (hcur : s.current_thread_id = none)
    (hgl : ids.getLast? = none)
    (hfc : p.fail_create = false) (hfl : p.fail_load_ids = false) :
    bootstrap_thread p s =
      Except.ok ({ s with
        current_thread_id := some p.newId
        messages := some [get_welcome_message]
        processed_message_ids := some []
        processed_tools_ids := some []
        thread_ids := some (p.threads ++ [⟨p.newId, p.newTitle⟩]) },
        { p with threads := p.threads ++ [⟨p.newId, p.newTitle⟩] }) := by
  unfold bootstrap_thread
  rw [if_neg (by simp [hti]), except_pure_eq_ok, except_bind_ok,
    if_pos (by simp [hcur]), hti]
  rw [show create_new_conversation p =
      Except.ok (⟨p.newId, [get_welcome_message], [], []⟩,
        { p with threads := p.threads ++ [⟨p.newId, p.newTitle⟩] }) by
    simp [create_new_conversation, hfc]]
  simp only [Option.getD_some, hgl, except_bind_ok]
  rw [show load_thread_ids
      { p with threads := p.threads ++ [⟨p.newId, p.newTitle⟩] } =
      Except.ok (p.threads ++ [⟨p.newId, p.newTitle⟩]) by
    simp [load_thread_ids, hfl]]
  rw [except_bind_ok, except_pure_eq_ok]

theorem bootstrap_thread_create_fail (p : Persist) (s : SessionState)
    (ids : List RosterEntry)
    (hti : s.thread_ids = some ids) (hcur : s.current_thread_id = none)
    (hgl : ids.getLast? = none) (hfc : p.fail_create = true) :
    bootstrap_thread p s = Except.error () := by
  unfold bootstrap_thread
  rw [if_neg (by simp [hti]), except_pure_eq_ok, except_bind_ok,
    if_pos (by simp [hcur]), hti]
  rw [show create_new_conversation p = Except.error () by
    simp [create_new_conversation, hfc]]
  simp only [Option.getD_some, hgl, except_bind_err]

theorem bootstrap_thread_create_load_fail (p : Persist) (s : SessionState)
    (ids : List RosterEntry)
    (hti : s.thread_ids = some ids) (hcur : s.current_thread_id = none)
    (hgl : ids.getLast? = none)
    (hfc : p.fail_create = false) (hfl : p.fail_load_ids = true) :
    bootstrap_thread p s = Except.error () := by
  unfold bootstrap_thread
  rw [if_neg (by simp [hti]), except_pure_eq_ok, except_bind_ok,
    if_pos (by simp [hcur]), hti]
  rw [show create_new_conversation p =
      Except.ok (⟨p.newId, [get_welcome_message], [], []⟩,
        { p with threads := p.threads ++ [⟨p.newId, p.newTitle⟩] }) by
    simp [create_new_conversation, hfc]]
  simp only [Option.getD_some, hgl, except_bind_ok]
  rw [show load_thread_ids
      { p with threads := p.threads ++ [⟨p.newId, p.newTitle⟩] } =
      Except.error () by simp [load_thread_ids, hfl]]
  rw [except_bind_err]

end RepurDemo

namespace RepurDemo

theorem contains_thread_id_of_mem {ids : List RosterEntry} {e : RosterEntry}
    (h : e ∈ ids) :
    (ids.map RosterEntry.thread_id).contains e.thread_id = true :=
  List.elem_eq_true_of_mem (List.mem_map_of_mem RosterEntry.thread_id h)

theorem roster_inv_record (s : SessionState) (ids : List RosterEntry)
    (tid : String)
    (hti : s.thread_ids = some ids) (hcur : s.current_thread_id = some tid)
    (hmem : (ids.map RosterEntry.thread_id).contains tid = true) :
    roster_inv s = true := by
  unfold roster_inv
  rw [hti, hcur]
  simp only [hmem, Bool.or_true]

theorem roster_inv_of_core {s t : SessionState} (hc : corePreserved s t)
    (h : roster_inv s = true) : roster_inv t = true := by
  unfold roster_inv at h ⊢
  simp only [hc.1, hc.2.1]
  exact h

theorem bootstrap_inv_core (p : Persist) (t s' : SessionState) (p' : Persist)
    (ids : List RosterEntry)
    (hti : t.thread_ids = some ids) (hcur : t.current_thread_id = none)
    (hok : bootstrap_thread p t = Except.ok (s', p')) :
    roster_inv s' = true := by
  cases hgl : ids.getLast? with
  | some recent =>
    have hmem : (ids.map RosterEntry.thread_id).contains recent.thread_id =
        true :=
      contains_thread_id_of_mem (List.mem_of_getLast?_eq_some hgl)
    cases hca : p.fail_create_app with
    | true =>
      rw [bootstrap_thread_fallback p t ids recent hti hcur hgl
        (Or.inl hca)] at hok
      simp only [Except.ok.injEq, Prod.mk.injEq] at hok
      obtain ⟨h1, h2⟩ := hok
      subst h1
      exact roster_inv_record _ ids recent.thread_id hti rfl hmem
    | false =>
      cases hlc : p.fail_load_conv with
      | true =>
        rw [bootstrap_thread_fallback p t ids recent hti hcur hgl
          (Or.inr hlc)] at hok
        simp only [Except.ok.injEq, Prod.mk.injEq] at hok
        obtain ⟨h1, h2⟩ := hok
        subst h1
        exact roster_inv_record _ ids recent.thread_id hti rfl hmem
      | false =>
        rw [bootstrap_thread_pick p t ids recent hti hcur hgl hca hlc] at hok
        simp only [Except.ok.injEq, Prod.mk.injEq] at hok
        obtain ⟨h1, h2⟩ := hok
        subst h1
        exact roster_inv_record _ ids recent.thread_id hti rfl hmem
  | none =>
    cases hfc : p.fail_create with
    | true =>
      rw [bootstrap_thread_create_fail p t ids hti hcur hgl hfc] at hok
      exact Except.noConfusion hok
    | false =>
      cases hfl : p.fail_load_ids with
      | true =>
        rw [bootstrap_thread_create_load_fail p t ids hti hcur hgl hfc
          hfl] at hok
        exact Except.noConfusion hok
      | false =>
        rw [bootstrap_thread_create p t ids hti hcur hgl hfc hfl] at hok
        simp only [Except.ok.injEq, Prod.mk.injEq] at hok
        obtain ⟨h1, h2⟩ := hok
        subst h1
        exact roster_inv_record _ (p.threads ++ [⟨p.newId, p.newTitle⟩])
          p.newId rfl rfl (contains_thread_id_of_mem (e := ⟨p.newId, p.newTitle⟩)
            (by simp))

theorem init_roster_inv (p p' : Persist) (s s' : SessionState)
    (hwf : s.thread_ids = none → s.current_thread_id = none)
    (hinv : roster_inv s = true)
    (hok : initialize_demo_session p s = Except.ok (s', p')) :
    roster_inv s' = true := by
  have hcore := init_compat_core p s
  simp only [initialize_demo_session] at hok
  cases hb : bootstrap_thread p (init_compat_fields p s) with
  | error e =>
    rw [hb, except_bind_err] at hok
    exact Except.noConfusion hok
  | ok rp =>
    rw [hb, except_bind_ok, except_pure_eq_ok] at hok
    simp only [Except.ok.injEq, Prod.mk.injEq] at hok
    obtain ⟨h1, h2⟩ := hok
    subst h1
    apply roster_inv_of_core (init_approval_core rp.1)
    cases hc1 : (init_compat_fields p s).current_thread_id with
    | some t0 =>
      have hscur : s.current_thread_id = some t0 := hcore.2.1.symm.trans hc1
      cases hsti : s.thread_ids with
      | none => exact absurd (hwf hsti) (by simp [hscur])
      | some ids =>
        have hti1 : (init_compat_fields p s).thread_ids = some ids :=
          hcore.1.trans hsti
        rw [bootstrap_thread_noop p _ (by simp [hti1]) (by simp [hc1])] at hb
        simp only [Except.ok.injEq] at hb
        subst hb
        exact roster_inv_of_core hcore hinv
    | none =>
      cases hti1 : (init_compat_fields p s).thread_ids with
      | some ids =>
        exact bootstrap_inv_core p _ rp.1 rp.2 ids hti1 hc1 hb
      | none =>
        cases hfl : p.fail_load_ids with
        | true =>
          rw [bootstrap_thread_load_fail p _ hti1 hfl] at hb
          exact Except.noConfusion hb
        | false =>
          rw [bootstrap_thread_load p _ hti1 hfl] at hb
          exact bootstrap_inv_core p
            { init_compat_fields p s with thread_ids := some p.threads }
            rp.1 rp.2 p.threads rfl hc1 hb

end RepurDemo

namespace RepurDemo

theorem load_conversation_ok (p : Persist) (tid : String) (s : SessionState)
    (hlc : p.fail_load_conv = false) :
    load_conversation p tid s = Except.ok { s with
      current_thread_id := some tid
      messages := some (((p.conv.find? (fun e => e.1 = tid)).map
        Prod.snd).getD [])
      processed_message_ids := some []
      processed_tools_ids := some [] } := by
  simp [load_conversation, hlc]

theorem fully_init_load_update (s : SessionState) (tid : String)
    (msgs : Option (List Message)) (h : fully_init s = true) :
    fully_init { s with
      current_thread_id := some tid
      messages := some (msgs.getD [])
      processed_message_ids := some []
      processed_tools_ids := some [] } = true := by
  simp only [fully_init, Bool.and_eq_true] at h ⊢
  obtain ⟨⟨⟨⟨⟨⟨⟨⟨⟨⟨⟨⟨⟨⟨⟨⟨h1, h2⟩, h3⟩, h4⟩, h5⟩, h6⟩, h7⟩, h8⟩, h9⟩, h10⟩,
    h11⟩, h12⟩, h13⟩, h14⟩, h15⟩, h16⟩, h17⟩ := h
  exact ⟨⟨⟨⟨⟨⟨⟨⟨⟨⟨⟨⟨⟨⟨⟨⟨h1, h2⟩, h3⟩, h4⟩, h5⟩, h6⟩, h7⟩, h8⟩, h9⟩, h10⟩,
    rfl⟩, rfl⟩, rfl⟩, rfl⟩, h15⟩, h16⟩, h17⟩

/-- C6 counterexample: when the roster load itself
(`load_thread_ids`, outside any `try` block) fails during Bootstrap, the
session crashes — the exception escapes `initialize_demo_session` — rather
than falling back to an in-memory thread, so "any persistence call fails"
is too strong. -/
theorem bootstrap_roster_failure_crashes :
    initialize_demo_session { pDemo with fail_load_ids := true } sFresh =
      Except.error () := by
  decide

/-- C6 as amended: if loading the most recent conversation fails during
Bootstrap (a failure of `create_app` or `load_conversation`, the only calls
wrapped in a `try`), the session does not crash: the controller falls back
to an in-memory-only thread in which `current_thread_id` is assigned the
most recent roster entry's id, `messages` equals exactly the welcome
message, and both processed-id tracking sets are empty.  Failures of
`load_thread_ids` or `create_new_conversation` still propagate. -/
theorem bootstrap_conv_failure_fallback (p : Persist) (s : SessionState)
    (hti : s.thread_ids = none) (hcur : s.current_thread_id = none)
    (hfl : p.fail_load_ids = false)
    (hfail : p.fail_create_app = true ∨ p.fail_load_conv = true)
    (recent : RosterEntry) (hgl : p.threads.getLast? = some recent) :
    ∃ s', initialize_demo_session p s = Except.ok (s', p) ∧
      s'.current_thread_id = some recent.thread_id ∧
      s'.messages = some [get_welcome_message] ∧
      s'.processed_message_ids = some [] ∧
      s'.processed_tools_ids = some [] := by
  have hcore := init_compat_core p s
  have hti1 : (init_compat_fields p s).thread_ids = none :=
    hcore.1.trans hti
  have hcur1 : (init_compat_fields p s).current_thread_id = none :=
    hcore.2.1.trans hcur
  refine ⟨init_approval_fields { init_compat_fields p s with
      thread_ids := some p.threads
      current_thread_id := some recent.thread_id
      messages := some [get_welcome_message]
      processed_message_ids := some []
      processed_tools_ids := some [] }, ?_,
    (init_approval_core _).2.1, (init_approval_core _).2.2.1,
    (init_approval_core _).2.2.2.1, (init_approval_core _).2.2.2.2⟩
  simp only [initialize_demo_session]
  rw [bootstrap_thread_load p _ hti1 hfl,
    bootstrap_thread_fallback p
      { init_compat_fields p s with thread_ids := some p.threads }
      p.threads recent rfl hcur1 hgl hfail,
    except_bind_ok, except_pure_eq_ok]

/-- Witness for the amended C6: with two stored threads and a failing
`load_conversation`, bootstrap ends on the most recent thread `t2` with
only the welcome message. -/
theorem bootstrap_conv_failure_fallback_witness :
    ∃ s', initialize_demo_session pFallback sFresh =
        Except.ok (s', pFallback) ∧
      s'.current_thread_id = some entry2.thread_id ∧
      s'.messages = some [get_welcome_message] ∧
      s'.processed_message_ids = some [] ∧
      s'.processed_tools_ids = some [] :=
  bootstrap_conv_failure_fallback pFallback sFresh rfl rfl rfl (Or.inr rfl)
    entry2 (by decide)

/-- C7 counterexample: the "New Task" button handler is `st.rerun()`
alone; from the fully initialised two-thread state it leaves the session
state and the persistence collaborator untouched, so the roster does not
grow and no new thread becomes current. -/
theorem new_task_creates_nothing_cex :
    new_task_click pDemo sReady = Except.ok (sReady, pDemo) ∧
    sReady.thread_ids = some [entry1, entry2] ∧
    pDemo.threads = [entry1, entry2] := by
  exact ⟨by decide, rfl, rfl⟩

/-- C7 as amended: the always-available "New Task" action only triggers
a rerun; in this demo no thread record is created and, from any fully
initialised session state, session state and persistence are left exactly
unchanged (roster size preserved, current thread unchanged). -/
theorem new_task_rerun_noop (p : Persist) (s : SessionState)
    (h : fully_init s = true) :
    new_task_click p s = Except.ok (s, p) := by
  unfold new_task_click
  exact init_session_stable p s h

/-- Witness for the amended C7. -/
theorem new_task_rerun_noop_witness :
    new_task_click pDemo sWaiting = Except.ok (sWaiting, pDemo) :=
  new_task_rerun_noop pDemo sWaiting (by decide)

/-- C8 counterexample: deleting the active thread `t2` is a rerun-only
no-op — the thread record is not removed, no other entry becomes current
and no fresh thread is created; `t2` itself simply stays current. -/
theorem delete_active_thread_noop_cex :
    sReady.current_thread_id = some "t2" ∧
    delete_click pDemo sReady "t2" = Except.ok (sReady, pDemo) ∧
    sReady.thread_ids = some [entry1, entry2] := by
  exact ⟨rfl, by decide, rfl⟩

/-- C8 as amended: after any completed transition the roster
referential-integrity invariant holds — if the roster is non-empty then
`current_thread_id` references one of its entries.  The three conjuncts
cover every transition of the demo: (1) any completed
`initialize_demo_session` run — which is Bootstrap itself and also the
whole effect of the rerun-only CreateNew and Delete handlers — establishes
the invariant from any well-formed state satisfying it; (2) Delete is a
rerun no-op, so the active thread simply remains current and in the roster
(rather than another or a freshly created thread becoming current); and
(3) a completed Select of a thread that the sidebar lists (an id in the
roster, the only ids for which components.py renders a button) makes that
id current, re-establishing the invariant. -/
theorem roster_referential_integrity (p p' : Persist) (s s' : SessionState)
    (tid : String)
    (hwf : s.thread_ids = none → s.current_thread_id = none)
    (hinv : roster_inv s = true) :
    (initialize_demo_session p s = Except.ok (s', p') →
      roster_inv s' = true) ∧
    (fully_init s = true →
      delete_click p s tid = Except.ok (s, p) ∧ roster_inv s = true) ∧
    (fully_init s = true →
      tid ∈ (s.thread_ids.getD []).map RosterEntry.thread_id →
      select_click p s tid = Except.ok (s', p') →
      roster_inv s' = true) := by
  refine ⟨init_roster_inv p p' s s' hwf hinv,
    fun hfi => ⟨init_session_stable p s hfi, hinv⟩, ?_⟩
  intro hfi hmem hok
  cases hlc : p.fail_load_conv with
  | true =>
    unfold select_click at hok
    rw [show load_conversation p tid s = Except.error () by
      simp [load_conversation, hlc], except_bind_err] at hok
    exact Except.noConfusion hok
  | false =>
    unfold select_click at hok
    rw [load_conversation_ok p tid s hlc, except_bind_ok,
      init_session_stable p _ (fully_init_load_update s tid _ hfi)] at hok
    simp only [Except.ok.injEq, Prod.mk.injEq] at hok
    obtain ⟨h1, h2⟩ := hok
    subst h1
    cases hti : s.thread_ids with
    | none => simp [fully_init, hti] at hfi
    | some ids =>
      simp only [hti, Option.getD_some] at hmem
      exact roster_inv_record _ ids tid rfl rfl
        (List.elem_eq_true_of_mem hmem)

/-- Witness for the amended C8: deleting the active thread of the concrete
two-thread session leaves it unchanged with the invariant intact, and
selecting the listed thread `t1` completes with the invariant intact. -/
theorem roster_referential_integrity_witness :
    (delete_click pDemo sReady "t2" = Except.ok (sReady, pDemo) ∧
      roster_inv sReady = true) ∧
    roster_inv sSelected = true :=
  ⟨(roster_referential_integrity pDemo pDemo sReady sReady "t2"
      (by decide) (by decide)).2.1 (by decide),
   (roster_referential_integrity pDemo pDemo sReady sSelected "t1"
      (by decide) (by decide)).2.2 (by decide) (by decide) (by decide)⟩

/-- C9 counterexample: with `waiting_for_approval = true` the Select
transition is not refused — selecting `t1` succeeds and changes the
session state (the current thread moves from `t2` to `t1` and `messages`
is reloaded). -/
theorem select_ignores_waiting_cex :
    sWaiting.waiting_for_approval = some true ∧
    sWaiting.current_thread_id = some "t2" ∧
    (select_click pDemo sWaiting "t1").map
      (fun r => (r.1.current_thread_id, r.1.messages)) =
      Except.ok (some "t1", some [⟨"user", "hi"⟩]) := by
  exact ⟨rfl, rfl, by decide⟩

/-- C9 as amended: the `waiting_for_approval` flag is initialised to
false but never consulted by the demo's transition handlers; in
particular, from any fully initialised state with the flag set, Select(id)
still starts, completes, and makes `id` current while the flag stays
raised. -/
theorem select_proceeds_when_waiting (p : Persist) (s : SessionState)
    (tid : String) (h : fully_init s = true)
    (hw : s.waiting_for_approval = some true)
    (hlc : p.fail_load_conv = false) :
    ∃ s', select_click p s tid = Except.ok (s', p) ∧
      s'.current_thread_id = some tid ∧
      s'.waiting_for_approval = some true := by
  refine ⟨{ s with
      current_thread_id := some tid
      messages := some (((p.conv.find? (fun e => e.1 = tid)).map
        Prod.snd).getD [])
      processed_message_ids := some []
      processed_tools_ids := some [] }, ?_, rfl, hw⟩
  simp only [select_click, load_conversation_ok p tid s hlc, except_bind_ok]
  exact init_session_stable p _ (fully_init_load_update s tid _ h)

/-- Witness for the amended C9. -/
theorem select_proceeds_when_waiting_witness :
    ∃ s', select_click pDemo sWaiting "t1" = Except.ok (s', pDemo) ∧
      s'.current_thread_id = some "t1" ∧
      s'.waiting_for_approval = some true :=
  select_proceeds_when_waiting pDemo sWaiting "t1" (by decide) rfl rfl

/-- C10: session initialisation is idempotent — every field write in
`initialize_demo_session` is guarded by a membership check, so on any
session state in which all those fields are already set, re-running it (as
happens on every rerender) returns without changing the session state or
touching persistence. -/
theorem init_session_idempotent (p : Persist) (s : SessionState)
    (h : fully_init s = true) :
    initialize_demo_session p s = Except.ok (s, p) :=
  init_session_stable p s h

/-- Witness for C10. -/
theorem init_session_idempotent_witness :
    initialize_demo_session pDemo sReady = Except.ok (sReady, pDemo) :=
  init_session_idempotent pDemo sReady (by decide)

end RepurDemo
